import Mathlib

/-
Verification development for the DOMe-and-DOMer-2 benchmark harness.

The definitions below are a shallow embedding of the Python sources:
  parallel_runner.py   (TaskRunner, its module-level execute_interaction)
  serial_runner.py     (SerialTaskRunner)
  utils.py             (execute_interaction used by the serial runner)
  evaluation/parallel_eval.py (evaluate_task, successful_tasks aggregation)
  evaluation/auto_eval.py     (evaluate_task)
  evaluation/fuzzy_match.py   (message construction and truncation)

External effects (Selenium waits and actions, model-adapter calls, judge
calls) are modelled as explicit outcome parameters of type Except:
an Except.error models the corresponding Python call raising an exception,
an Except.ok models it returning normally.  Functions additionally return a
trace of the browser-level or session-level operations they attempted, in
order, so that claims about what was or was not attempted are statable.
Strings are modelled with Lean String; in fuzzy_match, where only character
counts matter, with List Char.
-/

/-- Selenium exception taxonomy as caught by the runners: the four named
exception classes plus the generic Exception catch-all carrying str(e). -/
inductive SelExc where
  | timeout
  | notInteractable
  | stale
  | clickIntercepted
  | other (msg : String)
deriving DecidableEq

/-- Browser-level operations attempted by an interaction executor, in the
order they are issued to the Selenium driver. -/
inductive BEvent where
  | waitPresence
  | captureHtml
  | waitInteractable
  | scroll
  | clickNative
  | clickScript
  | clear
  | sendKeys
  | sendReturn
  | moveTo
deriving DecidableEq

/-- Session lifecycle events: a browser session is acquired when
webdriver.Chrome returns, and released when driver.quit is called. -/
inductive SessEvent where
  | acquire
  | release
deriving DecidableEq

/-- Result dictionary of parallel_runner.execute_interaction
(keys success, html_element, error). -/
structure PResult where
  success : Bool
  html_element : Option String
  error : Option String
deriving DecidableEq

/-- Outcomes of the Selenium calls made by parallel_runner.execute_interaction:
each field gives the behaviour of the corresponding driver call at this
element, Except.error e meaning the call raises exception e. -/
structure PDriverEnv where
  presence : Except SelExc Unit
  outerHTML : String
  interactable : Except SelExc Unit
  scroll : Except SelExc Unit
  clickNative : Except SelExc Unit
  clickScript : Except SelExc Unit
  clear : Except SelExc Unit
  sendKeys : Except SelExc Unit
  sendReturn : Except SelExc Unit

/-- The selector_map dict of parallel_runner.execute_interaction
(id, class, text, css, xpath). -/
def ParallelRunner.selector_map (selector_type : String) : Option String :=
  match selector_type with
  | "id" => some "ID"
  | "class" => some "CLASS_NAME"
  | "text" => some "LINK_TEXT"
  | "css" => some "CSS_SELECTOR"
  | "xpath" => some "XPATH"
  | _ => none

/-- The except-clauses of parallel_runner.execute_interaction: maps the
raised exception to the error message stored in the result, keeping
whatever html_element was captured before the exception. -/
def ParallelRunner.handleExc (e : SelExc) (selector_type selector_value : String)
    (html : Option String) : PResult :=
  { success := false
    html_element := html
    error := some (match e with
      | .timeout => "Element not found: " ++ selector_type ++ "=" ++ selector_value
      | .notInteractable => "Element not interactable: " ++ selector_type ++ "=" ++ selector_value
      | .stale => "Element became stale: " ++ selector_type ++ "=" ++ selector_value
      | .clickIntercepted => "Click blocked: " ++ selector_type ++ "=" ++ selector_value
      | .other msg => msg) }

/-- The action dispatch at the end of parallel_runner.execute_interaction
(click with script-click fallback on interception, type, type_submit; any
other interaction_type raises ValueError which the generic except turns
into the result error).  html is the outer-HTML captured after the
presence wait; tr is the trace accumulated so far. -/
def ParallelRunner.dispatch (env : PDriverEnv) (interaction_type : String)
    (selector_type selector_value : String) (html : String) (tr : List BEvent) :
    PResult × List BEvent :=
  if interaction_type = "click" then
    match env.clickNative with
    | .ok _ => ({ success := true, html_element := some html, error := none },
                tr ++ [.clickNative])
    | .error .clickIntercepted =>
      match env.clickScript with
      | .ok _ => ({ success := true, html_element := some html, error := none },
                  tr ++ [.clickNative, .clickScript])
      | .error e => (ParallelRunner.handleExc e selector_type selector_value (some html),
                     tr ++ [.clickNative, .clickScript])
    | .error e => (ParallelRunner.handleExc e selector_type selector_value (some html),
                   tr ++ [.clickNative])
  else if interaction_type = "type" then
    match env.clear with
    | .error e => (ParallelRunner.handleExc e selector_type selector_value (some html),
                   tr ++ [.clear])
    | .ok _ =>
      match env.sendKeys with
      | .ok _ => ({ success := true, html_element := some html, error := none },
                  tr ++ [.clear, .sendKeys])
      | .error e => (ParallelRunner.handleExc e selector_type selector_value (some html),
                     tr ++ [.clear, .sendKeys])
  else if interaction_type = "type_submit" then
    match env.clear with
    | .error e => (ParallelRunner.handleExc e selector_type selector_value (some html),
                   tr ++ [.clear])
    | .ok _ =>
      match env.sendKeys with
      | .error e => (ParallelRunner.handleExc e selector_type selector_value (some html),
                     tr ++ [.clear, .sendKeys])
      | .ok _ =>
        match env.sendReturn with
        | .ok _ => ({ success := true, html_element := some html, error := none },
                    tr ++ [.clear, .sendKeys, .sendReturn])
        | .error e => (ParallelRunner.handleExc e selector_type selector_value (some html),
                       tr ++ [.clear, .sendKeys, .sendReturn])
  else
    (ParallelRunner.handleExc (.other ("Invalid interaction type: " ++ interaction_type))
       selector_type selector_value (some html), tr)

/-- Shallow embedding of the module-level execute_interaction of
parallel_runner.py: selector_map lookup (raising Invalid selector type
before any wait), presence wait, immediate outer-HTML capture, the
interaction-type dependent interactability wait (with scrollIntoView for
non-type actions), then the action dispatch.  Returns the result dict and
the trace of driver operations attempted. -/
def ParallelRunner.execute_interaction (env : PDriverEnv) (interaction_type : String)
    (selector_type selector_value : String) (input_text : String) :
    PResult × List BEvent :=
  match ParallelRunner.selector_map selector_type with
  | none => ({ success := false, html_element := none
               error := some ("Invalid selector type: " ++ selector_type) }, [])
  | some _ =>
    match env.presence with
    | .error e => (ParallelRunner.handleExc e selector_type selector_value none,
                   [.waitPresence])
    | .ok _ =>
      let html := env.outerHTML
      let tr0 : List BEvent := [.waitPresence, .captureHtml]
      if interaction_type = "type" ∨ interaction_type = "type_submit" then
        match env.interactable with
        | .error e => (ParallelRunner.handleExc e selector_type selector_value (some html),
                       tr0 ++ [.waitInteractable])
        | .ok _ =>
          ParallelRunner.dispatch env interaction_type selector_type selector_value html
            (tr0 ++ [.waitInteractable])
      else
        match env.interactable with
        | .error e => (ParallelRunner.handleExc e selector_type selector_value (some html),
                       tr0 ++ [.waitInteractable])
        | .ok _ =>
          match env.scroll with
          | .error e => (ParallelRunner.handleExc e selector_type selector_value (some html),
                         tr0 ++ [.waitInteractable, .scroll])
          | .ok _ =>
            ParallelRunner.dispatch env interaction_type selector_type selector_value html
              (tr0 ++ [.waitInteractable, .scroll])

/-- The target_element dict of an interaction as read by utils.execute_interaction:
the two .get calls may each find the key absent. -/
structure UTarget where
  type? : Option String
  value? : Option String
deriving DecidableEq

/-- The interaction dict passed to utils.execute_interaction: action string,
optional target_element dict (new format), optional selector string (old
format), optional input_text and value entries. -/
structure UInteraction where
  action : String
  target_element : Option UTarget
  selector : Option String
  input_text : Option String
  value : Option String
deriving DecidableEq

/-- Outcomes of the Selenium calls made by utils.execute_interaction. -/
structure UDriverEnv where
  presence : Except SelExc Unit
  clickable : Except SelExc Unit
  outerHTML : String
  click : Except SelExc Unit
  clear : Except SelExc Unit
  sendKeys : Except SelExc Unit
  moveTo : Except SelExc Unit

/-- Python truthiness of an optional string: None and the empty string are
falsy, any other string is truthy. -/
def pyTruthy : Option String → Bool
  | none => false
  | some s => !s.data.isEmpty

/-- ASCII lower-casing of one character, modelling Python str.lower on the
ASCII selector and action strings this code handles. -/
def lowerChar (c : Char) : Char :=
  if 65 ≤ c.toNat ∧ c.toNat ≤ 90 then Char.ofNat (c.toNat + 32) else c

/-- ASCII lower-casing of a string, modelling Python str.lower. -/
def strLower (s : String) : String := String.mk (s.data.map lowerChar)

/-- Python selector.split over the first equals sign with maxsplit one:
returns the two parts when the separator occurs, none otherwise. -/
def splitEqOnce (s : String) : Option (String × String) :=
  if s.data.contains '=' then
    some (String.mk (s.data.takeWhile (fun c => c ≠ '=')),
          String.mk (((s.data.dropWhile (fun c => c ≠ '='))).drop 1))
  else
    none

/-- Selector extraction of utils.execute_interaction: read type and value
from target_element, then, if either is falsy, overwrite both from the old
selector string when it splits into two parts at an equals sign. -/
def Utils.resolveSelector (interaction : UInteraction) : Option String × Option String :=
  let selector_type := interaction.target_element.bind (fun te => te.type?)
  let selector_value := interaction.target_element.bind (fun te => te.value?)
  if !pyTruthy selector_type || !pyTruthy selector_value then
    match interaction.selector with
    | some sel =>
      if !sel.isEmpty then
        match splitEqOnce sel with
        | some (a, b) => (some a, some b)
        | none => (selector_type, selector_value)
      else (selector_type, selector_value)
    | none => (selector_type, selector_value)
  else
    (selector_type, selector_value)

/-- The selector_map dict of utils.execute_interaction
(id, class, css, xpath, name, tag; class is mapped to a CSS selector). -/
def Utils.selector_map (selector_type : String) : Option String :=
  match selector_type with
  | "id" => some "ID"
  | "class" => some "CSS_SELECTOR"
  | "css" => some "CSS_SELECTOR"
  | "xpath" => some "XPATH"
  | "name" => some "NAME"
  | "tag" => some "TAG_NAME"
  | _ => none

/-- Conversion of a space-separated class attribute value to a compound
CSS class selector, as done for class selectors in utils.execute_interaction. -/
def Utils.classToCss (selector_value : String) : String :=
  String.mk ('.' :: List.intercalate ['.']
    (((selector_value.data.splitOnP (fun c => c.isWhitespace)).filter
        (fun w => !w.isEmpty))))

/-- Shallow embedding of utils.execute_interaction: the whole body runs
inside a try whose generic except returns (False, None).  Selector
extraction and mapping, presence wait, clickable wait, outer-HTML capture
after both waits, then the action dispatch (click, type, hover; any other
action returns (False, element_html)).  Returns the (success, element_html)
pair and the trace of driver operations attempted. -/
def Utils.execute_interaction (env : UDriverEnv) (interaction : UInteraction) :
    (Bool × Option String) × List BEvent :=
  let action := strLower interaction.action
  let (selector_type?, selector_value?) := Utils.resolveSelector interaction
  if !pyTruthy selector_type? || !pyTruthy selector_value? then
    ((false, none), [])
  else
    let selector_type := selector_type?.getD ""
    let selector_value := selector_value?.getD ""
    match Utils.selector_map (strLower selector_type) with
    | none => ((false, none), [])
    | some _ =>
      let _selector_value_to_use :=
        if strLower selector_type = "class" then Utils.classToCss selector_value
        else selector_value
      match env.presence with
      | .error _ => ((false, none), [.waitPresence])
      | .ok _ =>
        match env.clickable with
        | .error _ => ((false, none), [.waitPresence, .waitInteractable])
        | .ok _ =>
          let element_html := env.outerHTML
          let _value := interaction.input_text.getD (interaction.value.getD "")
          let tr : List BEvent := [.waitPresence, .waitInteractable, .captureHtml]
          if action = "click" then
            match env.click with
            | .ok _ => ((true, some element_html), tr ++ [.clickNative])
            | .error _ => ((false, none), tr ++ [.clickNative])
          else if action = "type" then
            match env.clear with
            | .error _ => ((false, none), tr ++ [.clear])
            | .ok _ =>
              match env.sendKeys with
              | .ok _ => ((true, some element_html), tr ++ [.clear, .sendKeys])
              | .error _ => ((false, none), tr ++ [.clear, .sendKeys])
          else if action = "hover" then
            match env.moveTo with
            | .ok _ => ((true, some element_html), tr ++ [.moveTo])
            | .error _ => ((false, none), tr ++ [.moveTo])
          else
            ((false, some element_html), tr)

/-- A task dict as read by the runners: the .get calls used by the code
may find each key absent. -/
structure PTask where
  id : Option String
  task : Option String
  web : Option String
deriving DecidableEq

/-- The effective task id, task.get with default unknown, used both for the
result record and for screenshot file names. -/
def taskIdOf (t : PTask) : String := t.id.getD "unknown"

/-- The structured interaction returned by the model adapter
(action, selector_type, selector_value, input_text). -/
structure InteractionReq where
  action : String
  selector_type : String
  selector_value : String
  input_text : String
deriving DecidableEq

/-- The per-task result dict built by TaskRunner.execute_task.  Fields the
code only sets on some paths are Options (absent key = none). -/
structure TaskResultRec where
  task_id : String
  success : Bool
  error : Option String
  task_description : Option String
  before_screenshot : Option String
  after_screenshot : Option String
  html_element : Option String
deriving DecidableEq

/-- Outcomes of the external calls made during one run of
TaskRunner.execute_task: Chrome construction and the blank-page navigation
inside setup_driver, the task navigation, the two screenshots, the model
adapter call (Except.ok none models parse_task returning None), and the
driver behaviour seen by execute_interaction. -/
structure PTaskEnv where
  chromeStart : Except String Unit
  blankNav : Except String Unit
  nav : Except String Unit
  beforeShot : Except String Unit
  parse : Except String (Option InteractionReq)
  ienv : PDriverEnv
  afterShot : Except String Unit

/-- The try-block body of TaskRunner.execute_task after the driver has been
created: navigation, before screenshot, model parse (returning the result
unchanged when the adapter returns None), execute_interaction, after
screenshot.  Any modelled exception is caught by the generic except which
stores str(e) in the error field. -/
def TaskRunner.taskBody (env : PTaskEnv) (task : PTask) (r0 : TaskResultRec) :
    TaskResultRec :=
  match task.web with
  | none => { r0 with error := some "No URL provided in task" }
  | some _ =>
    match env.nav with
    | .error e => { r0 with error := some e }
    | .ok _ =>
      match env.beforeShot with
      | .error e => { r0 with error := some e }
      | .ok _ =>
        let r1 := { r0 with before_screenshot := some (taskIdOf task ++ "_before.png") }
        match env.parse with
        | .error e => { r1 with error := some e }
        | .ok none => r1
        | .ok (some interaction) =>
          let interaction_result :=
            (ParallelRunner.execute_interaction env.ienv interaction.action
              interaction.selector_type interaction.selector_value
              interaction.input_text).1
          if interaction_result.success then
            let r2 := { r1 with success := true
                                html_element := interaction_result.html_element }
            match env.afterShot with
            | .error e => { r2 with error := some e }
            | .ok _ => { r2 with after_screenshot := some (taskIdOf task ++ "_after.png") }
          else
            { r1 with error := interaction_result.error }

/-- Shallow embedding of TaskRunner.execute_task: the initial result dict,
the try over setup_driver plus the task body, and the finally that quits
the driver only when the local driver variable was assigned.  A failure of
the blank-page navigation inside setup_driver happens after Chrome was
started but before the driver is assigned to the local, so the finally
does not release it.  Returns the result and the session event trace. -/
def TaskRunner.execute_task (env : PTaskEnv) (task : PTask) :
    TaskResultRec × List SessEvent :=
  let r0 : TaskResultRec :=
    { task_id := taskIdOf task
      success := false
      error := none
      task_description := task.task
      before_screenshot := none
      after_screenshot := none
      html_element := none }
  match env.chromeStart with
  | .error e => ({ r0 with error := some e }, [])
  | .ok _ =>
    match env.blankNav with
    | .error e => ({ r0 with error := some e }, [.acquire])
    | .ok _ =>
      (TaskRunner.taskBody env task r0, [.acquire, .release])

/-- The fallback record appended by TaskRunner.run_tasks when a task future
raises instead of returning a result. -/
def TaskRunner.fallbackRecord (task : PTask) (e : String) : TaskResultRec :=
  { task_id := taskIdOf task
    success := false
    error := some e
    task_description := none
    before_screenshot := none
    after_screenshot := none
    html_element := none }

/-- Splitting the task list into consecutive batches of size batch_size, as
done by the range-with-step loop of TaskRunner.run_tasks. -/
def chunkList (batch_size : Nat) (l : List PTask) : List (List PTask) :=
  if h : batch_size = 0 ∨ l = [] then []
  else
    l.take batch_size :: chunkList batch_size (l.drop batch_size)
termination_by l.length
decreasing_by
  have hb : batch_size ≠ 0 := fun hh => h (Or.inl hh)
  have hl : l ≠ [] := fun hh => h (Or.inr hh)
  have : 0 < l.length := List.length_pos.mpr hl
  simp only [List.length_drop]
  omega

/-- One batch of TaskRunner.run_tasks: every submitted future is consumed
exactly once, in completion order; a future that returns contributes its
result, a future that raises contributes the fallback record.  The
execution of each task is abstracted as an Except-valued function exec. -/
def TaskRunner.processBatch (exec : PTask → Except String TaskResultRec)
    (order : List PTask) : List TaskResultRec :=
  order.map (fun task =>
    match exec task with
    | .ok r => r
    | .error e => TaskRunner.fallbackRecord task e)

/-- Shallow embedding of TaskRunner.run_tasks: tasks are processed in
consecutive batches of size max_workers; within a batch, futures complete
in an order modelled by the reorder function (as_completed is a permutation
of the batch); the per-batch results are appended to one flat list. -/
def TaskRunner.run_tasks (exec : PTask → Except String TaskResultRec)
    (reorder : List PTask → List PTask) (max_workers : Nat)
    (tasks : List PTask) : List TaskResultRec :=
  ((chunkList max_workers tasks).map
    (fun batch => TaskRunner.processBatch exec (reorder batch))).flatten

/-- The per-task result dict built by SerialTaskRunner.execute_task. -/
structure SResult where
  task_id : String
  success : Bool
  error : Option String
  after_screenshot : Option String
  html_element : Option String
deriving DecidableEq

/-- Outcomes of the external calls made during one run of
SerialTaskRunner.execute_task: Chrome construction and the blank-page
navigation inside setup_driver, the task navigation, the model adapter
call (Except.ok none models parse_task returning None, on which the
attribute accesses raise), the driver behaviour seen by
utils.execute_interaction, and the after screenshot (utils.save_screenshot
catches its own errors and returns an optional path). -/
structure STaskEnv where
  chromeStart : Except String Unit
  blankNav : Except String Unit
  nav : Except String Unit
  parse : Except String (Option InteractionReq)
  uenv : UDriverEnv
  afterShot : Option String

/-- The error message format of SerialTaskRunner.execute_task's except
clause. -/
def SerialTaskRunner.errMsg (task_id e : String) : String :=
  "Error in task " ++ task_id ++ ": " ++ e

/-- The try-block body of SerialTaskRunner.execute_task after the driver
has been created: navigation, model parse, utils.execute_interaction
(raising ValueError Interaction failed when it returns False), after
screenshot and accessibility tree, then the final success decision, which
sets success to False on both branches (the code defers the real verdict
to the later evaluation stage). -/
def SerialTaskRunner.taskBody (env : STaskEnv) (task : PTask) (r0 : SResult) :
    SResult :=
  let task_id := taskIdOf task
  match task.web with
  | none => { r0 with error := some (SerialTaskRunner.errMsg task_id "No URL provided in task") }
  | some _ =>
    match env.nav with
    | .error e => { r0 with error := some (SerialTaskRunner.errMsg task_id e) }
    | .ok _ =>
      match env.parse with
      | .error e => { r0 with error := some (SerialTaskRunner.errMsg task_id e) }
      | .ok none =>
        { r0 with error := some (SerialTaskRunner.errMsg task_id
            "AttributeError: NoneType object has no attribute action") }
      | .ok (some wi) =>
        let interaction : UInteraction :=
          { action := wi.action
            target_element := some { type? := some wi.selector_type
                                     value? := some wi.selector_value }
            selector := none
            input_text := some wi.input_text
            value := none }
        let (outcome, _) := Utils.execute_interaction env.uenv interaction
        if !outcome.1 then
          { r0 with error := some (SerialTaskRunner.errMsg task_id "Interaction failed") }
        else
          let r1 := { r0 with html_element := outcome.2 }
          let after_screenshot := env.afterShot
          let r2 := { r1 with after_screenshot := after_screenshot }
          if pyTruthy after_screenshot && pyTruthy outcome.2 then
            { r2 with success := false }
          else
            { r2 with success := false
                      error := some "Missing required data (screenshots or HTML element)" }

/-- Shallow embedding of SerialTaskRunner.execute_task: the initial result
dict, the try over setup_driver plus the task body, and the finally that
quits the driver only when the local driver variable exists.  As in the
parallel runner, a failure of the blank-page navigation inside
setup_driver happens after Chrome was started but before the local is
assigned, so the finally does not release the session. -/
def SerialTaskRunner.execute_task (env : STaskEnv) (task : PTask) :
    SResult × List SessEvent :=
  let r0 : SResult :=
    { task_id := taskIdOf task
      success := false
      error := none
      after_screenshot := none
      html_element := none }
  let task_id := taskIdOf task
  match env.chromeStart with
  | .error e => ({ r0 with error := some (SerialTaskRunner.errMsg task_id e) }, [])
  | .ok _ =>
    match env.blankNav with
    | .error e => ({ r0 with error := some (SerialTaskRunner.errMsg task_id e) }, [.acquire])
    | .ok _ =>
      (SerialTaskRunner.taskBody env task r0, [.acquire, .release])

/-- The runner result fields read by evaluation/parallel_eval.evaluate_task:
the success flag (always present), the after_screenshot key (a direct
subscript, so a missing key raises KeyError) and the html_element key
(read with .get). -/
structure EvalInputResult where
  success : Bool
  after_screenshot : Option String
  html_element : Option String
deriving DecidableEq

/-- An evaluation record produced by evaluation/parallel_eval.evaluate_task. -/
structure PEvalRecord where
  task_id : String
  success : Bool
  visual_score : ℚ
  html_score : ℚ
  final_score : ℚ
  visual_reasoning : Option String
  html_reasoning : Option String
  error : Option String
deriving DecidableEq

/-- The record returned by the except clause of
evaluation/parallel_eval.evaluate_task. -/
def ParallelEval.errorRecord (task_id e : String) : PEvalRecord :=
  { task_id := task_id
    success := false
    visual_score := 0
    html_score := 0
    final_score := 0
    visual_reasoning := none
    html_reasoning := none
    error := some e }

/-- Shallow embedding of evaluation/parallel_eval.evaluate_task.  The two
judge calls are modelled as outcome parameters: Except.ok gives the
(correctness, reasoning) pair returned by the judge, Except.error models
the call raising (compare_images can raise on an unreadable ground-truth
image or an API failure).  Reading result subscript after_screenshot on a
record without that key raises KeyError, landing in the same except
clause.  On the normal path, scores are the canonical 0.8 visual / 0.2
structural weighted sum and success is copied from the runner result. -/
def ParallelEval.evaluate_task (visualJudge htmlJudge : Except String (Bool × String))
    (task_id : String) (result : EvalInputResult) : PEvalRecord :=
  match result.after_screenshot with
  | none => ParallelEval.errorRecord task_id "KeyError: after_screenshot"
  | some _ =>
    match visualJudge with
    | .error e => ParallelEval.errorRecord task_id e
    | .ok (visual_correctness, visual_reasoning) =>
      match htmlJudge with
      | .error e => ParallelEval.errorRecord task_id e
      | .ok (html_correctness, html_reasoning) =>
        let visual_score : ℚ := if visual_correctness then 1.0 else 0.0
        let html_score : ℚ := if html_correctness then 1.0 else 0.0
        let final_score : ℚ := 0.8 * visual_score + 0.2 * html_score
        { task_id := task_id
          success := result.success
          visual_score := visual_score
          html_score := html_score
          final_score := final_score
          visual_reasoning := some visual_reasoning
          html_reasoning := some html_reasoning
          error := none }

/-- The successful_tasks count computed by
evaluation/parallel_eval.run_parallel_evaluation over the evaluation
records. -/
def ParallelEval.successful_tasks (evaluations : List PEvalRecord) : Nat :=
  (evaluations.filter (fun e => e.success)).length

/-- An evaluation record produced by evaluation/auto_eval.evaluate_task. -/
structure AEvalRecord where
  task_id : String
  success : Bool
  visual_score : ℚ
  html_score : ℚ
  final_score : ℚ
  error : Option String
deriving DecidableEq

/-- Shallow embedding of evaluation/auto_eval.evaluate_task: the judges are
outcome parameters as in the parallel pipeline; on the normal path the
final score is the 50-50 weighted sum of the two scores and success is the
comparison of the final score against the 0.9 threshold. -/
def AutoEval.evaluate_task (visualJudge htmlJudge : Except String (Bool × String))
    (task_id : String) : AEvalRecord :=
  match visualJudge with
  | .error e =>
    { task_id := task_id, success := false
      visual_score := 0, html_score := 0, final_score := 0, error := some e }
  | .ok (visual_correct, _) =>
    match htmlJudge with
    | .error e =>
      { task_id := task_id, success := false
        visual_score := 0, html_score := 0, final_score := 0, error := some e }
    | .ok (html_correct, _) =>
      let visual_score : ℚ := if visual_correct then 1.0 else 0.0
      let html_score : ℚ := if html_correct then 1.0 else 0.0
      let final_score : ℚ := 0.5 * visual_score + 0.5 * html_score
      { task_id := task_id
        success := decide ((0.9 : ℚ) ≤ final_score)
        visual_score := visual_score
        html_score := html_score
        final_score := final_score
        error := none }

/-- Python string truncation used in evaluation/fuzzy_match.py: a string
longer than the budget is replaced by its budget-length slice followed by
an ellipsis of three dots.  Strings are modelled as character lists. -/
def FuzzyMatch.truncate (budget : Nat) (s : List Char) : List Char :=
  if budget < s.length then s.take budget ++ [Char.ofNat 46, Char.ofNat 46, Char.ofNat 46]
  else s

/-- The user-message content template of evaluation/fuzzy_match.py, built
with an f-string from the task description, expected HTML, actual HTML and
the optional note. -/
def FuzzyMatch.userContent (task_description actual_html expected_html : List Char)
    (note : Option (List Char)) : List Char :=
  match note with
  | some n =>
    "Task: ".toList ++ task_description
      ++ "\n\nExpected HTML:\n".toList ++ expected_html
      ++ "\n\nActual HTML:\n".toList ++ actual_html
      ++ "\n\nAdditional Context: ".toList ++ n
  | none =>
    "Task: ".toList ++ task_description
      ++ "\n\nExpected HTML:\n".toList ++ expected_html
      ++ "\n\nActual HTML:\n".toList ++ actual_html

/-- Shallow embedding of the message construction of
evaluation/fuzzy_match.fuzzy_match_html: the messages list is built first,
interpolating the original arguments; the truncation afterwards only
rebinds the local variables, which are not read again, so the user content
submitted to the judge is the one interpolated from the originals. -/
def FuzzyMatch.submittedUserContent (task_description actual_html expected_html : List Char)
    (note : Option (List Char)) : List Char :=
  let messagesUserContent := FuzzyMatch.userContent task_description actual_html expected_html note
  let _actual_html := FuzzyMatch.truncate 2000 actual_html
  let _expected_html := FuzzyMatch.truncate 2000 expected_html
  let _task_description := FuzzyMatch.truncate 500 task_description
  messagesUserContent

/-- The user content the spec describes: overlong inputs truncated to the
fixed character budgets before submission to the judge. -/
def FuzzyMatch.specUserContent (task_description actual_html expected_html : List Char)
    (note : Option (List Char)) : List Char :=
  FuzzyMatch.userContent (FuzzyMatch.truncate 500 task_description)
    (FuzzyMatch.truncate 2000 actual_html)
    (FuzzyMatch.truncate 2000 expected_html) note

/-- A driver environment in which every Selenium call succeeds and the
element's outer-HTML is a fixed marker string. -/
def allOkPDriver : PDriverEnv :=
  { presence := .ok ()
    outerHTML := "H"
    interactable := .ok ()
    scroll := .ok ()
    clickNative := .ok ()
    clickScript := .ok ()
    clear := .ok ()
    sendKeys := .ok ()
    sendReturn := .ok () }

/-- A utils driver environment where both waits succeed but the native
click raises StaleElementReferenceException. -/
def staleClickUDriver : UDriverEnv :=
  { presence := .ok ()
    clickable := .ok ()
    outerHTML := "H"
    click := .error .stale
    clear := .ok ()
    sendKeys := .ok ()
    moveTo := .ok () }

/-- A utils driver environment in which every Selenium call succeeds. -/
def allOkUDriver : UDriverEnv :=
  { presence := .ok ()
    clickable := .ok ()
    outerHTML := "H"
    click := .ok ()
    clear := .ok ()
    sendKeys := .ok ()
    moveTo := .ok () }

/-- A click interaction on an element addressed by id, in the new
target_element format. -/
def clickById : UInteraction :=
  { action := "click"
    target_element := some { type? := some "id", value? := some "x" }
    selector := none
    input_text := none
    value := none }

/-- Claim C4: when the selector type is not in the executor's selector map,
parallel_runner.execute_interaction returns success false with the
Invalid selector type error, and its trace of attempted driver operations
is empty: no wait and no browser interaction happens before the error. -/
theorem invalid_selector_is_fatal_and_early (env : PDriverEnv)
    (interaction_type selector_value input_text selector_type : String)
    (h : ParallelRunner.selector_map selector_type = none) :
    ParallelRunner.execute_interaction env interaction_type selector_type
        selector_value input_text =
      ({ success := false, html_element := none
         error := some ("Invalid selector type: " ++ selector_type) }, []) := by
  unfold ParallelRunner.execute_interaction
  rw [h]

/-- Witness for C4 at the selector type bogus of the spec's test vector. -/
theorem invalid_selector_is_fatal_and_early_witness :
    ParallelRunner.selector_map "bogus" = none ∧
    ParallelRunner.execute_interaction allOkPDriver "click" "bogus" "x" "" =
      ({ success := false, html_element := none
         error := some ("Invalid selector type: " ++ "bogus") }, []) :=
  ⟨rfl, invalid_selector_is_fatal_and_early allOkPDriver "click" "x" "" "bogus" rfl⟩

/-- Every branch of the action dispatch keeps the outer-HTML captured
after the presence wait in the returned result. -/
theorem ParallelRunner.dispatch_keeps_html (env : PDriverEnv)
    (interaction_type selector_type selector_value html : String) (tr : List BEvent) :
    (ParallelRunner.dispatch env interaction_type selector_type selector_value
        html tr).1.html_element = some html := by
  unfold ParallelRunner.dispatch
  split_ifs <;> (repeat' split) <;> simp [ParallelRunner.handleExc]

/-- Every branch of the action dispatch only appends to the trace
accumulated before it. -/
theorem ParallelRunner.dispatch_trace_mono (env : PDriverEnv)
    (interaction_type selector_type selector_value html : String) (tr : List BEvent) :
    ∃ suffix, (ParallelRunner.dispatch env interaction_type selector_type selector_value
        html tr).2 = tr ++ suffix := by
  unfold ParallelRunner.dispatch
  split_ifs <;> (repeat' split) <;> first
    | exact ⟨_, rfl⟩
    | exact ⟨[], by simp⟩

/-- The action dispatch preserves the first two entries of the trace
accumulated before it. -/
theorem ParallelRunner.dispatch_trace_cons (env : PDriverEnv)
    (interaction_type selector_type selector_value html : String)
    (a b : BEvent) (tr : List BEvent) :
    ∃ rest, (ParallelRunner.dispatch env interaction_type selector_type selector_value
        html (a :: b :: tr)).2 = a :: b :: rest := by
  obtain ⟨s, hs⟩ := ParallelRunner.dispatch_trace_mono env interaction_type
    selector_type selector_value html (a :: b :: tr)
  refine ⟨tr ++ s, ?_⟩
  rw [hs]
  simp

/-- Once the presence wait succeeds, every exit of
parallel_runner.execute_interaction carries the captured outer-HTML. -/
theorem ParallelRunner.exec_html_of_present (env : PDriverEnv)
    (interaction_type selector_type selector_value input_text : String)
    (hsel : (ParallelRunner.selector_map selector_type).isSome = true)
    (hpres : env.presence = .ok ()) :
    (ParallelRunner.execute_interaction env interaction_type selector_type
        selector_value input_text).1.html_element = some env.outerHTML := by
  obtain ⟨b, hb⟩ := Option.isSome_iff_exists.mp hsel
  unfold ParallelRunner.execute_interaction
  simp only [hb, hpres]
  split_ifs <;> (repeat' split) <;>
    first
    | exact ParallelRunner.dispatch_keeps_html env interaction_type
        selector_type selector_value env.outerHTML _
    | simp [ParallelRunner.handleExc]

/-- Once the presence wait succeeds, the trace of
parallel_runner.execute_interaction starts with the presence wait followed
immediately by the outer-HTML capture, before any interactability wait. -/
theorem ParallelRunner.exec_trace_of_present (env : PDriverEnv)
    (interaction_type selector_type selector_value input_text : String)
    (hsel : (ParallelRunner.selector_map selector_type).isSome = true)
    (hpres : env.presence = .ok ()) :
    ∃ rest, (ParallelRunner.execute_interaction env interaction_type selector_type
        selector_value input_text).2 = .waitPresence :: .captureHtml :: rest := by
  obtain ⟨b, hb⟩ := Option.isSome_iff_exists.mp hsel
  unfold ParallelRunner.execute_interaction
  simp only [hb, hpres]
  split_ifs <;> (repeat' split) <;>
    first
    | exact ⟨_, rfl⟩
    | exact ParallelRunner.dispatch_trace_cons env interaction_type
        selector_type selector_value env.outerHTML .waitPresence .captureHtml _

/-- Claim C5 (amended): in the parallel runner's executor, whenever the
selector type is supported and the element becomes present, the outer-HTML
is captured immediately after the presence wait (the trace begins with the
presence wait followed by the capture, before the interactability wait)
and the returned result carries that outer-HTML on every exit, including
failures of the later waits or of the action itself.  The utils executor
does not have this property, see the counterexample. -/
theorem parallel_executor_captures_and_keeps_html (env : PDriverEnv)
    (interaction_type selector_type selector_value input_text : String)
    (hsel : (ParallelRunner.selector_map selector_type).isSome = true)
    (hpres : env.presence = .ok ()) :
    (ParallelRunner.execute_interaction env interaction_type selector_type
        selector_value input_text).1.html_element = some env.outerHTML ∧
    ∃ rest, (ParallelRunner.execute_interaction env interaction_type selector_type
        selector_value input_text).2 = .waitPresence :: .captureHtml :: rest :=
  ⟨ParallelRunner.exec_html_of_present env interaction_type selector_type
      selector_value input_text hsel hpres,
   ParallelRunner.exec_trace_of_present env interaction_type selector_type
      selector_value input_text hsel hpres⟩

/-- A parallel driver environment in which the presence and
interactability waits succeed but the native click raises
StaleElementReferenceException. -/
def staleClickPDriver : PDriverEnv :=
  { presence := .ok ()
    outerHTML := "H"
    interactable := .ok ()
    scroll := .ok ()
    clickNative := .error .stale
    clickScript := .ok ()
    clear := .ok ()
    sendKeys := .ok ()
    sendReturn := .ok () }

/-- Witness for C5 (amended): a click whose action fails with a stale
element still returns the outer-HTML captured right after the presence
wait. -/
theorem parallel_executor_captures_and_keeps_html_witness :
    (ParallelRunner.execute_interaction staleClickPDriver "click" "id" "x" "").1.html_element
        = some staleClickPDriver.outerHTML ∧
    ∃ rest, (ParallelRunner.execute_interaction staleClickPDriver "click" "id" "x" "").2
        = .waitPresence :: .captureHtml :: rest :=
  parallel_executor_captures_and_keeps_html staleClickPDriver "click" "id" "x" "" rfl rfl

/-- Claim C5 counterexample: in utils.execute_interaction (the executor the
serial runner uses, cited by the claim), the element is found (the
presence wait succeeds and its outer-HTML is captured, as the trace
records), yet when the click action itself raises, the function returns
(False, None): the captured outer-HTML is not in the returned result, and
the capture happened only after the interactability wait. -/
theorem utils_executor_drops_html_on_click_failure :
    Utils.execute_interaction staleClickUDriver clickById =
      ((false, none), [.waitPresence, .waitInteractable, .captureHtml, .clickNative]) := by
  decide

/-- In utils.execute_interaction, a hover on a present, clickable element
succeeds with the captured outer-HTML, after moving the pointer to the
element; no input text is needed. -/
theorem Utils.hover_moves_pointer (uenv : UDriverEnv) (ty val : String) (input : Option String)
    (hty : ty.data ≠ []) (hval : val.data ≠ [])
    (hsel : (Utils.selector_map (strLower ty)).isSome = true)
    (hp : uenv.presence = .ok ()) (hc : uenv.clickable = .ok ())
    (hm : uenv.moveTo = .ok ()) :
    Utils.execute_interaction uenv
        { action := "hover"
          target_element := some { type? := some ty, value? := some val }
          selector := none
          input_text := input
          value := none } =
      ((true, some uenv.outerHTML), [.waitPresence, .waitInteractable, .captureHtml, .moveTo]) := by
  obtain ⟨b, hb⟩ := Option.isSome_iff_exists.mp hsel
  have h1 : strLower "hover" = "hover" := by decide
  unfold Utils.execute_interaction Utils.resolveSelector
  simp only [pyTruthy, h1, hb, hp, hc, hm, List.isEmpty_iff]
  simp [hty, hval]
  rw [hb]

/-- In parallel_runner.execute_interaction, hover is not among the handled
interaction types: even with a present, interactable element it fails with
the Invalid interaction type error (the captured outer-HTML is kept). -/
theorem ParallelRunner.hover_rejected (penv : PDriverEnv) (st sv it : String)
    (hpsel : (ParallelRunner.selector_map st).isSome = true)
    (hpp : penv.presence = .ok ()) (hpi : penv.interactable = .ok ())
    (hps : penv.scroll = .ok ()) :
    (ParallelRunner.execute_interaction penv "hover" st sv it).1 =
      { success := false
        html_element := some penv.outerHTML
        error := some ("Invalid interaction type: " ++ "hover") } := by
  obtain ⟨b, hb⟩ := Option.isSome_iff_exists.mp hpsel
  unfold ParallelRunner.execute_interaction ParallelRunner.dispatch
  simp only [hb, hpp, hpi, hps]
  simp [ParallelRunner.handleExc]

/-- Claim C6 (amended): hover is supported only by utils.execute_interaction,
the executor the serial runner uses: there, a found and interactable
element gets the pointer moved to it and the call returns success with no
input text required.  The parallel runner's own executor instead rejects
hover as an invalid interaction type and returns success false. -/
theorem hover_supported_only_by_utils_executor
    (uenv : UDriverEnv) (ty val : String) (input : Option String)
    (hty : ty.data ≠ []) (hval : val.data ≠ [])
    (hsel : (Utils.selector_map (strLower ty)).isSome = true)
    (hp : uenv.presence = .ok ()) (hc : uenv.clickable = .ok ())
    (hm : uenv.moveTo = .ok ())
    (penv : PDriverEnv) (st sv it : String)
    (hpsel : (ParallelRunner.selector_map st).isSome = true)
    (hpp : penv.presence = .ok ()) (hpi : penv.interactable = .ok ())
    (hps : penv.scroll = .ok ()) :
    Utils.execute_interaction uenv
        { action := "hover"
          target_element := some { type? := some ty, value? := some val }
          selector := none
          input_text := input
          value := none } =
      ((true, some uenv.outerHTML), [.waitPresence, .waitInteractable, .captureHtml, .moveTo]) ∧
    (ParallelRunner.execute_interaction penv "hover" st sv it).1 =
      { success := false
        html_element := some penv.outerHTML
        error := some ("Invalid interaction type: " ++ "hover") } :=
  ⟨Utils.hover_moves_pointer uenv ty val input hty hval hsel hp hc hm,
   ParallelRunner.hover_rejected penv st sv it hpsel hpp hpi hps⟩

/-- Witness for C6 (amended) at concrete inputs: a hover on an id selector
with all driver calls succeeding and no input text. -/
theorem hover_supported_only_by_utils_executor_witness :
    Utils.execute_interaction allOkUDriver
        { action := "hover"
          target_element := some { type? := some "id", value? := some "x" }
          selector := none
          input_text := none
          value := none } =
      ((true, some allOkUDriver.outerHTML),
        [.waitPresence, .waitInteractable, .captureHtml, .moveTo]) ∧
    (ParallelRunner.execute_interaction allOkPDriver "hover" "id" "x" "").1 =
      { success := false
        html_element := some allOkPDriver.outerHTML
        error := some ("Invalid interaction type: " ++ "hover") } :=
  hover_supported_only_by_utils_executor allOkUDriver "id" "x" none
    (by decide) (by decide) (by decide) rfl rfl rfl
    allOkPDriver "id" "x" "" (by decide) rfl rfl rfl

/-- Claim C6 counterexample: the parallel runner's executor, on a hover
request whose target element is present and interactable (every driver
call succeeds), does not move the pointer and returns success false with
an Invalid interaction type error, contradicting the claim that the
executor hovers and returns success. -/
theorem hover_fails_in_parallel_executor_cex :
    (ParallelRunner.execute_interaction allOkPDriver "hover" "id" "x" "").1.success = false ∧
    (ParallelRunner.execute_interaction allOkPDriver "hover" "id" "x" "").1.error =
      some "Invalid interaction type: hover" ∧
    BEvent.moveTo ∉ (ParallelRunner.execute_interaction allOkPDriver "hover" "id" "x" "").2 := by
  decide

/-- Claim C10: SerialTaskRunner.execute_task returns success false on every
path, for every combination of outcomes of the external calls — including
the path where navigation, interaction, screenshot and HTML capture all
complete, where the code explicitly leaves success False pending later
evaluation.  The serial runner never sets success true. -/
theorem serial_runner_never_sets_success (env : STaskEnv) (task : PTask) :
    (SerialTaskRunner.execute_task env task).1.success = false := by
  unfold SerialTaskRunner.execute_task SerialTaskRunner.taskBody
  repeat' split <;> try (first | rfl | simp)

/-- A sample task with id, description and URL present. -/
def sampleTask : PTask :=
  { id := some "t1", task := some "click the submit button", web := some "http://example.com" }

/-- A sample structured interaction returned by the model adapter. -/
def wInteraction : InteractionReq :=
  { action := "click", selector_type := "id", selector_value := "submit", input_text := "" }

/-- A parallel task environment where Chrome starts but the blank-page
navigation inside setup_driver raises. -/
def leakPTaskEnv : PTaskEnv :=
  { chromeStart := .ok ()
    blankNav := .error "Page load timed out"
    nav := .ok ()
    beforeShot := .ok ()
    parse := .ok (some wInteraction)
    ienv := allOkPDriver
    afterShot := .ok () }

/-- Claim C8 counterexample: when the blank-page navigation inside
setup_driver raises after the Chrome session was created, the session was
acquired but the finally block of execute_task never releases it, because
the local driver variable was never assigned: the trace has one acquire
and zero releases. -/
theorem session_leaked_on_blank_nav_failure_cex :
    (TaskRunner.execute_task leakPTaskEnv sampleTask).2.count SessEvent.acquire = 1 ∧
    (TaskRunner.execute_task leakPTaskEnv sampleTask).2.count SessEvent.release = 0 := by
  decide

/-- Claim C8 (amended): whenever setup_driver returns — Chrome starts and
the blank-page navigation succeeds — both runners release the session
exactly once on every exit path of the task (the session trace is exactly
one acquire followed by one release, whatever the outcomes of navigation,
parsing, interaction and screenshots). -/
theorem session_released_once_when_setup_returns
    (penv : PTaskEnv) (ptask : PTask) (senv : STaskEnv) (stask : PTask)
    (h1 : penv.chromeStart = .ok ()) (h2 : penv.blankNav = .ok ())
    (h3 : senv.chromeStart = .ok ()) (h4 : senv.blankNav = .ok ()) :
    (TaskRunner.execute_task penv ptask).2 = [.acquire, .release] ∧
    (SerialTaskRunner.execute_task senv stask).2 = [.acquire, .release] := by
  unfold TaskRunner.execute_task SerialTaskRunner.execute_task
  simp only [h1, h2, h3, h4]
  exact ⟨trivial, trivial⟩

/-- A parallel task environment in which every external call succeeds. -/
def allOkPTaskEnv : PTaskEnv :=
  { chromeStart := .ok ()
    blankNav := .ok ()
    nav := .ok ()
    beforeShot := .ok ()
    parse := .ok (some wInteraction)
    ienv := allOkPDriver
    afterShot := .ok () }

/-- A serial task environment in which every external call succeeds. -/
def allOkSTaskEnv : STaskEnv :=
  { chromeStart := .ok ()
    blankNav := .ok ()
    nav := .ok ()
    parse := .ok (some wInteraction)
    uenv := allOkUDriver
    afterShot := some "t1_after.png" }

/-- Witness for C8 (amended) at concrete all-succeeding environments. -/
theorem session_released_once_when_setup_returns_witness :
    (TaskRunner.execute_task allOkPTaskEnv sampleTask).2 = [.acquire, .release] ∧
    (SerialTaskRunner.execute_task allOkSTaskEnv sampleTask).2 = [.acquire, .release] :=
  session_released_once_when_setup_returns allOkPTaskEnv sampleTask allOkSTaskEnv sampleTask
    rfl rfl rfl rfl

/-- Every failing exit of parallel_runner.execute_interaction carries an
error message. -/
theorem ParallelRunner.exec_error_of_failure (env : PDriverEnv)
    (interaction_type selector_type selector_value input_text : String)
    (h : (ParallelRunner.execute_interaction env interaction_type selector_type
        selector_value input_text).1.success = false) :
    (ParallelRunner.execute_interaction env interaction_type selector_type
        selector_value input_text).1.error.isSome = true := by
  unfold ParallelRunner.execute_interaction ParallelRunner.dispatch at *
  split_ifs at * <;> (repeat' split at *) <;> simp_all [ParallelRunner.handleExc]

/-- Every exit of TaskRunner.execute_task either carries an error message,
or is the model-skip path (parse_task returned None), or reports success. -/
theorem TaskRunner.error_or_skip_or_success (env : PTaskEnv) (task : PTask) :
    (TaskRunner.execute_task env task).1.error.isSome = true ∨
    env.parse = Except.ok none ∨
    (TaskRunner.execute_task env task).1.success = true := by
  unfold TaskRunner.execute_task TaskRunner.taskBody
  repeat' split
  all_goals try exact Or.inr (Or.inl (by assumption))
  all_goals try (left; simp; done)
  all_goals dsimp only
  all_goals split
  all_goals try (left; simp; done)
  all_goals try (right; right; simp; done)
  all_goals (left; apply ParallelRunner.exec_error_of_failure; simp_all)

/-- Claim C7 (amended): every failed Task Result of the parallel runner
carries an error message, except on the model-skip path: when the model
adapter returns None the result has success false and error None. -/
theorem failed_results_carry_error_except_model_skip (env : PTaskEnv) (task : PTask)
    (h : (TaskRunner.execute_task env task).1.success = false) :
    (TaskRunner.execute_task env task).1.error.isSome = true ∨
    env.parse = Except.ok none := by
  rcases TaskRunner.error_or_skip_or_success env task with h1 | h1 | h1
  · exact Or.inl h1
  · exact Or.inr h1
  · rw [h] at h1
    cases h1

/-- A parallel task environment where the task navigation raises. -/
def navFailPTaskEnv : PTaskEnv :=
  { chromeStart := .ok ()
    blankNav := .ok ()
    nav := .error "net::ERR_TIMED_OUT"
    beforeShot := .ok ()
    parse := .ok (some wInteraction)
    ienv := allOkPDriver
    afterShot := .ok () }

/-- Witness for C7 (amended) at a concrete failing navigation. -/
theorem failed_results_carry_error_except_model_skip_witness :
    (TaskRunner.execute_task navFailPTaskEnv sampleTask).1.success = false ∧
    ((TaskRunner.execute_task navFailPTaskEnv sampleTask).1.error.isSome = true ∨
      navFailPTaskEnv.parse = Except.ok none) :=
  ⟨by decide, failed_results_carry_error_except_model_skip navFailPTaskEnv sampleTask (by decide)⟩

/-- A parallel task environment where the model adapter returns None. -/
def skipPTaskEnv : PTaskEnv :=
  { chromeStart := .ok ()
    blankNav := .ok ()
    nav := .ok ()
    beforeShot := .ok ()
    parse := .ok none
    ienv := allOkPDriver
    afterShot := .ok () }

/-- Claim C7 counterexample: on the model-skip path the parallel runner
returns a Task Result with success false and error None — a failed record
with no error message, contradicting the claim. -/
theorem skip_path_result_has_no_error_cex :
    (TaskRunner.execute_task skipPTaskEnv sampleTask).1.success = false ∧
    (TaskRunner.execute_task skipPTaskEnv sampleTask).1.error = none := by
  decide

/-- On the normal path (both judges return), the success flag of the
evaluation record is the success flag of the runner result, whatever the
judges said. -/
theorem ParallelEval.success_eq_of_ok (v h : Bool × String) (task_id : String)
    (r : EvalInputResult) (shot : String) (hshot : r.after_screenshot = some shot) :
    (ParallelEval.evaluate_task (.ok v) (.ok h) task_id r).success = r.success := by
  obtain ⟨vc, vr⟩ := v
  obtain ⟨hc, hr⟩ := h
  unfold ParallelEval.evaluate_task
  rw [hshot]

/-- Claim C1 (amended): with visual score 1.0 and html score 0.0, the
parallel evaluation pipeline's 0.8 visual / 0.2 structural weighting gives
final_score 0.8, but its success flag is copied from the runner's Task
Result rather than derived from any threshold; the auto_eval pipeline does
derive success from the 0.9 threshold (false here), but under its own
0.5/0.5 weighting, which gives final_score 0.5, not 0.8. -/
theorem weighting_and_threshold_split (task_id : String) (r : EvalInputResult)
    (shot vr hr : String) (hshot : r.after_screenshot = some shot) :
    ((ParallelEval.evaluate_task (.ok (true, vr)) (.ok (false, hr)) task_id r).final_score
        = 0.8 ∧
     (ParallelEval.evaluate_task (.ok (true, vr)) (.ok (false, hr)) task_id r).success
        = r.success) ∧
    ((AutoEval.evaluate_task (.ok (true, vr)) (.ok (false, hr)) task_id).final_score = 0.5 ∧
     (AutoEval.evaluate_task (.ok (true, vr)) (.ok (false, hr)) task_id).success = false) := by
  unfold ParallelEval.evaluate_task AutoEval.evaluate_task
  rw [hshot]
  norm_num

/-- A runner result as seen by evaluation: the runner reported success and
an after-screenshot exists. -/
def sampleEvalResult : EvalInputResult :=
  { success := true, after_screenshot := some "t1_after.png", html_element := some "" }

/-- Claim C1 counterexample: for a task with visual score 1.0 and html
score 0.0, the parallel pipeline indeed produces final_score 0.8, but its
success flag is true here (copied from the runner result), not false as
the claim requires; and the auto_eval pipeline, the other evaluate_task the
claim cites, produces final_score 0.5 under its 50/50 weighting, not 0.8. -/
theorem weighting_claim_cex :
    (ParallelEval.evaluate_task (.ok (true, "")) (.ok (false, "")) "t1"
        sampleEvalResult).success = true ∧
    (ParallelEval.evaluate_task (.ok (true, "")) (.ok (false, "")) "t1"
        sampleEvalResult).final_score = 0.8 ∧
    (AutoEval.evaluate_task (.ok (true, "")) (.ok (false, "")) "t1").final_score ≠ 0.8 := by
  refine ⟨rfl, by norm_num [ParallelEval.evaluate_task, sampleEvalResult], ?_⟩
  norm_num [AutoEval.evaluate_task]

/-- Witness for C1 (amended) at a concrete runner result and judge
verdicts. -/
theorem weighting_and_threshold_split_witness :
    sampleEvalResult.after_screenshot = some "t1_after.png" ∧
    ((ParallelEval.evaluate_task (.ok (true, "v")) (.ok (false, "h")) "t1"
        sampleEvalResult).final_score = 0.8 ∧
     (ParallelEval.evaluate_task (.ok (true, "v")) (.ok (false, "h")) "t1"
        sampleEvalResult).success = sampleEvalResult.success) ∧
    ((AutoEval.evaluate_task (.ok (true, "v")) (.ok (false, "h")) "t1").final_score = 0.5 ∧
     (AutoEval.evaluate_task (.ok (true, "v")) (.ok (false, "h")) "t1").success = false) :=
  ⟨rfl, weighting_and_threshold_split "t1" sampleEvalResult "t1_after.png" "v" "h" rfl⟩

/-- Claim C9 (amended): when both judge calls return normally and the
result has an after-screenshot, the success flag of every parallel
evaluation record equals the success flag of the corresponding runner
result, independently of the judge verdicts, and consequently the
successful_tasks count does not change between any two judge-outcome
assignments.  When a judge call raises, however, the except clause
hard-codes success false, so an exceptional judge outcome can differ, see
the counterexample. -/
theorem success_independent_of_judges (pairs : List (String × EvalInputResult))
    (hshots : ∀ p ∈ pairs, p.2.after_screenshot.isSome = true)
    (jv jh jv2 jh2 : String × EvalInputResult → Bool × String) :
    (∀ p ∈ pairs,
      (ParallelEval.evaluate_task (.ok (jv p)) (.ok (jh p)) p.1 p.2).success = p.2.success) ∧
    ParallelEval.successful_tasks
      (pairs.map (fun p => ParallelEval.evaluate_task (.ok (jv p)) (.ok (jh p)) p.1 p.2)) =
    ParallelEval.successful_tasks
      (pairs.map (fun p => ParallelEval.evaluate_task (.ok (jv2 p)) (.ok (jh2 p)) p.1 p.2)) := by
  have hrec : ∀ (f g : String × EvalInputResult → Bool × String), ∀ p ∈ pairs,
      (ParallelEval.evaluate_task (.ok (f p)) (.ok (g p)) p.1 p.2).success = p.2.success := by
    intro f g p hp
    obtain ⟨shot, hshot⟩ := Option.isSome_iff_exists.mp (hshots p hp)
    exact ParallelEval.success_eq_of_ok (f p) (g p) p.1 p.2 shot hshot
  have key : ∀ (f g : String × EvalInputResult → Bool × String),
      ParallelEval.successful_tasks
        (pairs.map (fun p => ParallelEval.evaluate_task (.ok (f p)) (.ok (g p)) p.1 p.2)) =
      (pairs.filter (fun p => p.2.success)).length := by
    intro f g
    unfold ParallelEval.successful_tasks
    rw [List.filter_map, List.length_map]
    congr 1
    apply List.filter_congr
    intro p hp
    simp only [Function.comp]
    rw [hrec f g p hp]
  exact ⟨hrec jv jh, by rw [key jv jh, key jv2 jh2]⟩

/-- A judge that always answers correct. -/
def judgeTrue : String × EvalInputResult → Bool × String := fun _ => (true, "looks right")

/-- A judge that always answers incorrect. -/
def judgeFalse : String × EvalInputResult → Bool × String := fun _ => (false, "looks wrong")

/-- Witness for C9 (amended) on a one-task list with two different judge
assignments. -/
theorem success_independent_of_judges_witness :
    (∀ p ∈ [("t1", sampleEvalResult)],
      (ParallelEval.evaluate_task (.ok (judgeTrue p)) (.ok (judgeTrue p)) p.1 p.2).success
        = p.2.success) ∧
    ParallelEval.successful_tasks
      ([("t1", sampleEvalResult)].map
        (fun p => ParallelEval.evaluate_task (.ok (judgeTrue p)) (.ok (judgeTrue p)) p.1 p.2)) =
    ParallelEval.successful_tasks
      ([("t1", sampleEvalResult)].map
        (fun p => ParallelEval.evaluate_task (.ok (judgeFalse p)) (.ok (judgeFalse p)) p.1 p.2)) :=
  success_independent_of_judges [("t1", sampleEvalResult)] (by decide)
    judgeTrue judgeTrue judgeFalse judgeFalse

/-- Claim C9 counterexample: over the same runner result (success true,
after-screenshot present), a judge call that raises produces an evaluation
record with success false, while returning judges produce success true:
the success flag depends on the judge outcome and can differ from the
runner result's flag, contradicting the claim. -/
theorem success_not_judge_independent_cex :
    (ParallelEval.evaluate_task (.error "APIConnectionError") (.ok (true, "")) "t1"
        sampleEvalResult).success = false ∧
    (ParallelEval.evaluate_task (.ok (true, "")) (.ok (true, "")) "t1"
        sampleEvalResult).success = true ∧
    sampleEvalResult.success = true := by
  decide

/-- Claim C3 (code bug): fuzzy_match_html builds the judge messages before
running its truncation code, so the user content submitted to the judge is
the one interpolated from the original, untruncated arguments.  At an
actual_html of 2001 characters (one over the 2000-character budget), the
submitted content equals the template applied to the untruncated original
and differs from the content the spec describes, in which the overlong
input is replaced by its 2000-character prefix plus an ellipsis. -/
theorem fuzzy_judge_receives_untruncated_input :
    FuzzyMatch.submittedUserContent "t".toList (List.replicate 2001 (Char.ofNat 97))
        "e".toList none =
      FuzzyMatch.userContent "t".toList (List.replicate 2001 (Char.ofNat 97))
        "e".toList none ∧
    FuzzyMatch.submittedUserContent "t".toList (List.replicate 2001 (Char.ofNat 97))
        "e".toList none ≠
      FuzzyMatch.specUserContent "t".toList (List.replicate 2001 (Char.ofNat 97))
        "e".toList none := by
  constructor
  · rfl
  · intro hEq
    have hlen := congrArg List.length hEq
    have htr1 : FuzzyMatch.truncate 500 "t".toList = "t".toList := by decide
    have htr2 : FuzzyMatch.truncate 2000 "e".toList = "e".toList := by decide
    have htr3 : (FuzzyMatch.truncate 2000 (List.replicate 2001 (Char.ofNat 97))).length
        = 2003 := by
      rw [FuzzyMatch.truncate, if_pos (by rw [List.length_replicate]; omega)]
      rw [List.length_append, List.length_take, List.length_replicate]
      rw [List.length_cons, List.length_cons, List.length_cons, List.length_nil]
      rw [Nat.min_def]
      norm_num
    simp only [FuzzyMatch.submittedUserContent, FuzzyMatch.specUserContent,
      FuzzyMatch.userContent, htr1, htr2, htr3, List.length_append,
      List.length_replicate] at hlen
    omega

/-- The batches of run_tasks concatenate back to the original task list
when the batch size is nonzero. -/
theorem chunkList_flatten (batch_size : Nat) (hb : batch_size ≠ 0) (l : List PTask) :
    (chunkList batch_size l).flatten = l := by
  rw [chunkList]
  split
  · rename_i h
    rcases h with h | h
    · exact absurd h hb
    · simp [h]
  · rw [List.flatten_cons, chunkList_flatten batch_size hb (l.drop batch_size)]
    exact List.take_append_drop batch_size l
termination_by l.length
decreasing_by
  rename_i h
  have hl : l ≠ [] := fun hh => h (Or.inr hh)
  have : 0 < l.length := List.length_pos.mpr hl
  simp only [List.length_drop]
  omega

/-- Each batch of run_tasks contributes exactly one record per submitted
task, carrying that task's id: a returning future contributes its result
(whose task_id the execution sets to the task's id), a raising future
contributes the fallback record. -/
theorem processBatch_ids (exec : PTask → Except String TaskResultRec)
    (hexec : ∀ t r, exec t = .ok r → r.task_id = taskIdOf t) (l : List PTask) :
    (TaskRunner.processBatch exec l).map (fun r => r.task_id) = l.map taskIdOf := by
  induction l with
  | nil => rfl
  | cons t ts ih =>
    simp only [TaskRunner.processBatch, List.map_cons] at ih ⊢
    cases h : exec t with
    | ok r =>
      simp only [h]
      rw [hexec t r h]
      rw [ih]
    | error e =>
      simp only [h]
      rw [ih]
      rfl

/-- Flattening pointwise-permuted blocks yields permuted flattenings. -/
theorem flatten_map_perm {α β : Type} (f g : α → List β) (bs : List α)
    (h : ∀ b ∈ bs, (f b).Perm (g b)) :
    ((bs.map f).flatten).Perm ((bs.map g).flatten) := by
  induction bs with
  | nil => exact List.Perm.refl _
  | cons b bs ih =>
    simp only [List.map_cons, List.flatten_cons]
    exact (h b (List.mem_cons_self b bs)).append
      (ih (fun x hx => h x (List.mem_cons_of_mem b hx)))

/-- The task ids of the records returned by run_tasks are a permutation of
the input task ids, for every batch size, every as_completed completion
order, and every execution outcome. -/
theorem run_tasks_ids_perm (exec : PTask → Except String TaskResultRec)
    (reorder : List PTask → List PTask) (max_workers : Nat) (tasks : List PTask)
    (hmw : max_workers ≠ 0)
    (hperm : ∀ b, (reorder b).Perm b)
    (hexec : ∀ t r, exec t = .ok r → r.task_id = taskIdOf t) :
    ((TaskRunner.run_tasks exec reorder max_workers tasks).map
        (fun r => r.task_id)).Perm (tasks.map taskIdOf) := by
  unfold TaskRunner.run_tasks
  rw [List.map_flatten, List.map_map]
  have h1 : ((chunkList max_workers tasks).map
      ((fun l => l.map (fun r => r.task_id)) ∘
        (fun batch => TaskRunner.processBatch exec (reorder batch)))) =
      (chunkList max_workers tasks).map (fun batch => (reorder batch).map taskIdOf) := by
    apply List.map_congr_left
    intro b _
    exact processBatch_ids exec hexec (reorder b)
  rw [h1]
  have h2 : ((chunkList max_workers tasks).map
      (fun batch => (reorder batch).map taskIdOf)).flatten.Perm
      ((chunkList max_workers tasks).map (fun batch => batch.map taskIdOf)).flatten :=
    flatten_map_perm _ _ _ (fun b _ => (hperm b).map taskIdOf)
  refine h2.trans ?_
  rw [← List.map_flatten, chunkList_flatten max_workers hmw tasks]

/-- Claim C2: for every input task list with distinct effective ids, every
positive batch size, every per-batch completion order, and every per-task
execution outcome — a result or a raised exception — TaskRunner.run_tasks
returns exactly one record per input task carrying that task's id: the
count of records with a given task's id is one, so there are no duplicates
and no omissions. -/
theorem run_tasks_one_record_per_task (exec : PTask → Except String TaskResultRec)
    (reorder : List PTask → List PTask) (max_workers : Nat) (tasks : List PTask)
    (hmw : max_workers ≠ 0)
    (hperm : ∀ b, (reorder b).Perm b)
    (hexec : ∀ t r, exec t = .ok r → r.task_id = taskIdOf t)
    (hnodup : (tasks.map taskIdOf).Nodup) :
    ∀ t ∈ tasks, ((TaskRunner.run_tasks exec reorder max_workers tasks).map
        (fun r => r.task_id)).count (taskIdOf t) = 1 := by
  intro t ht
  rw [(run_tasks_ids_perm exec reorder max_workers tasks hmw hperm hexec).count_eq]
  exact List.count_eq_one_of_mem hnodup (List.mem_map_of_mem taskIdOf ht)

/-- A first concrete task for the run_tasks witness. -/
def wTaskA : PTask := { id := some "a", task := none, web := some "u1" }

/-- A second concrete task, whose execution is made to raise. -/
def wTaskB : PTask := { id := some "b", task := none, web := some "u2" }

/-- A third concrete task with no id, so its effective id is unknown. -/
def wTaskC : PTask := { id := none, task := none, web := none }

/-- A concrete execution in which the task with id b raises and every
other task returns a record carrying its own id. -/
def wExec : PTask → Except String TaskResultRec := fun t =>
  if taskIdOf t = "b" then .error "simulated crash"
  else .ok (TaskRunner.fallbackRecord t "done")

/-- Witness for C2: three tasks, batch size two, reversed completion order
within each batch, one task raising — the task that raises still gets
exactly one record with its id. -/
theorem run_tasks_one_record_per_task_witness :
    ((TaskRunner.run_tasks wExec List.reverse 2 [wTaskA, wTaskB, wTaskC]).map
        (fun r => r.task_id)).count (taskIdOf wTaskB) = 1 :=
  run_tasks_one_record_per_task wExec List.reverse 2 [wTaskA, wTaskB, wTaskC]
    (by decide) (fun b => List.reverse_perm b)
    (by
      intro t r h
      unfold wExec at h
      split at h
      · exact absurd h (by simp)
      · injection h with h2
        rw [← h2]
        rfl)
    (by decide) wTaskB (by decide)
